import Mathlib

/-!
Shallow embedding of the locator-resolution and wait/retry protocol of
`automation_lib/generic_libraries/libraries/web/page_base.py`.

Python strings are modelled as lists of characters (`Str`).  The helpers
`containsAA` and `splitAA` implement the Python expressions `"@@" in s`
and `s.split("@@")` (non-overlapping, left-to-right scan), specialised to
the separator `"@@"` that is the only separator used by the source.
-/

abbrev Str := List Char

/-- Embedding of the Python membership test `"@@" in s`. -/
def containsAA : Str → Bool
  | [] => false
  | [_] => false
  | c1 :: c2 :: rest =>
    if c1 = '@' ∧ c2 = '@' then true else containsAA (c2 :: rest)

/-- Embedding of the Python expression `s.split("@@")`: non-overlapping
occurrences of the separator are found scanning left to right. -/
def splitAA : Str → List Str
  | [] => [[]]
  | [c] => [[c]]
  | c1 :: c2 :: rest =>
    if c1 = '@' ∧ c2 = '@' then [] :: splitAA rest
    else
      match splitAA (c2 :: rest) with
      | [] => [[c1]]
      | p :: ps => (c1 :: p) :: ps

/-- The exception kinds that flow through the embedded operations.  The
selenium exception classes that the source distinguishes are separate
constructors; any other Python exception (including the generic
`Exception(...)` values the source raises itself) is `genericException`
carrying its message. -/
inductive Exc where
  | noSuchElement
  | staleElementReference
  | elementNotVisible
  | elementNotSelectable
  | notClickable
  | timeoutException (msg : Str)
  | genericException (msg : Str)
deriving DecidableEq, Repr

/-- Embedding of Python `str(e)` for the modelled exceptions.  The
selenium classes render their standard message text; the custom
`NotClickableException` is always raised without arguments in the source,
so it renders empty. -/
def Exc.str : Exc → Str
  | .noSuchElement => "no such element: Unable to locate element".toList
  | .staleElementReference => "stale element reference: element is not attached to the page document".toList
  | .elementNotVisible => "element not visible".toList
  | .elementNotSelectable => "element not selectable".toList
  | .notClickable => []
  | .timeoutException m => "Message: ".toList ++ m
  | .genericException m => m

/-- The selenium `By` constants used by `PageBase.__get_by`. -/
inductive By where
  | xpath
  | id
  | cssSelector
  | tagName
deriving DecidableEq, Repr

/-- `Strategy` enum from the bottom of `page_base.py`. -/
inductive Strategy where
  | XPATH
  | ID
  | CSS
  | TAGNAME
deriving DecidableEq, Repr

/-- The `value` of each `Strategy` enum member. -/
def Strategy.value : Strategy → Str
  | .XPATH => "xpath".toList
  | .ID => "id".toList
  | .CSS => "css".toList
  | .TAGNAME => "tag name".toList

/-- The `By` constant that `__get_by` pairs with each strategy token;
used only to state theorems about the resolver. -/
def Strategy.toBy : Strategy → By
  | .XPATH => .xpath
  | .ID => .id
  | .CSS => .cssSelector
  | .TAGNAME => .tagName

instance {ε α : Type} [DecidableEq ε] [DecidableEq α] : DecidableEq (Except ε α)
  | Except.ok a, Except.ok b => decidable_of_iff (a = b) (by simp)
  | Except.ok _, Except.error _ => isFalse (fun h => Except.noConfusion h)
  | Except.error _, Except.ok _ => isFalse (fun h => Except.noConfusion h)
  | Except.error a, Except.error b => decidable_of_iff (a = b) (by simp)

def invalidLocatorMsg : Str :=
  " Incorrect locator specified . Locator has to be either xpath,id,css,tagname -->".toList

/-- Embedding of `PageBase.__get_by`: default the strategy to `id` when no
`"@@"` separator is present, split on `"@@"`, take parts 0 and 1, and
dispatch on the strategy token.  An out-of-range index (impossible after
the defaulting step) models the Python `IndexError`. -/
def get_by (locator_with_strategy : Str) : Except Exc (By × Str) :=
  let lws : Str :=
    if containsAA locator_with_strategy then locator_with_strategy
    else Strategy.ID.value ++ '@' :: '@' :: locator_with_strategy
  let parts := splitAA lws
  match parts.get? 0, parts.get? 1 with
  | some strategy, some locator =>
    if strategy = Strategy.XPATH.value then Except.ok (By.xpath, locator)
    else if strategy = Strategy.ID.value then Except.ok (By.id, locator)
    else if strategy = Strategy.CSS.value then Except.ok (By.cssSelector, locator)
    else if strategy = Strategy.TAGNAME.value then Except.ok (By.tagName, locator)
    else Except.error (Exc.genericException (invalidLocatorMsg ++ lws))
  | _, _ => Except.error (Exc.genericException "IndexError: list index out of range".toList)

/-- A found web element; `displayed` models what `is_displayed()` would
report for it. -/
structure Elem where
  eid : Nat
  displayed : Bool
deriving DecidableEq, Repr

/-- What one evaluation of a `WebDriverWait` condition against the live
driver can do: return a truthy value (a found element), return a falsy
value (condition not yet met), or raise an exception. -/
inductive PollOutcome where
  | val (e : Elem)
  | falsy
  | err (e : Exc)
deriving DecidableEq, Repr

/-- Embedding of selenium `WebDriverWait(...).until(method, message)`:
poll the condition; a truthy value is returned, a falsy value means keep
polling, an exception in the ignored list is absorbed and polling
continues, and any other exception propagates immediately.  `polls` is
the number of condition evaluations that fit into the configured timeout
(one per `poll_frequency` sleep); when it is exhausted a
`TimeoutException` carrying `msg` is raised.  The driver is modelled by
`behavior`, giving the outcome of the condition at each poll step. -/
def wdwUntil (ignored : Exc → Bool) (msg : Str) (behavior : Nat → PollOutcome) :
    Nat → Nat → Except Exc Elem
  | _, 0 => Except.error (Exc.timeoutException msg)
  | step, polls + 1 =>
    match behavior step with
    | PollOutcome.val e => Except.ok e
    | PollOutcome.falsy => wdwUntil ignored msg behavior (step + 1) polls
    | PollOutcome.err e =>
      if ignored e then wdwUntil ignored msg behavior (step + 1) polls
      else Except.error e

/-- `WebDriverWait`'s default ignored list: only `NoSuchElementException`
(used when the constructor gets no `ignored_exceptions` argument, as in
`find_element`, `wait_till_element_is_present` and
`is_element_present`). -/
def defaultIgnored : Exc → Bool
  | .noSuchElement => true
  | _ => false

/-- The ignored list of `wait_till_element_is_visible`: the default
`NoSuchElementException` plus the `NoSuchElementException,
ElementNotVisibleException, ElementNotSelectableException,
StaleElementReferenceException` passed in the source. -/
def visibilityWaitIgnored : Exc → Bool
  | .noSuchElement => true
  | .elementNotVisible => true
  | .elementNotSelectable => true
  | .staleElementReference => true
  | _ => false

def natToStr (n : Nat) : Str := (toString n).toList

/-- The `message` argument `find_element` passes to `until`. -/
def findTimeoutMsg (timeout : Nat) (locator : Str) : Str :=
  "Timed out after ".toList ++ natToStr timeout ++
    " seconds while waiting to find the element with locator ".toList ++
    locator ++ " ".toList

/-- The message of the generic exception `find_element` re-raises. -/
def findElementWrapMsg (locator : Str) (e : Exc) : Str :=
  "Could Not Find Element with locator ".toList ++ locator ++
    " due to error ".toList ++ e.str ++ " ".toList

/-- Embedding of `PageBase.find_element`: resolve the locator, wait for
presence with the default ignored list and a timeout message carrying the
locator, and wrap any exception (including the timeout) in a generic
exception whose message repeats the locator. -/
def find_element (locator : Str) (timeout polls : Nat)
    (behavior : Nat → PollOutcome) : Except Exc Elem :=
  let inner : Except Exc Elem :=
    match get_by locator with
    | Except.error e => Except.error e
    | Except.ok _ => wdwUntil defaultIgnored (findTimeoutMsg timeout locator) behavior 0 polls
  match inner with
  | Except.ok e => Except.ok e
  | Except.error e => Except.error (Exc.genericException (findElementWrapMsg locator e))

/-- Embedding of `PageBase.wait_till_element_is_present`: wait for
presence with the default ignored list, no `message` argument, and
re-raise any exception unchanged. -/
def wait_till_element_is_present (locator : Str) (polls : Nat)
    (behavior : Nat → PollOutcome) : Except Exc Elem :=
  match get_by locator with
  | Except.error e => Except.error e
  | Except.ok _ => wdwUntil defaultIgnored [] behavior 0 polls

/-- Embedding of `PageBase.wait_till_element_is_visible`: wait for
visibility with the extended ignored list, no `message` argument, and
re-raise any exception unchanged. -/
def wait_till_element_is_visible (locator : Str) (polls : Nat)
    (behavior : Nat → PollOutcome) : Except Exc Elem :=
  match get_by locator with
  | Except.error e => Except.error e
  | Except.ok _ => wdwUntil visibilityWaitIgnored [] behavior 0 polls

/-- The message of the generic exception `is_element_present` re-raises
for non-timeout failures. -/
def presenceWrapMsg (locator : Str) (e : Exc) : Str :=
  "Could Not Verify Element Presence ".toList ++ locator ++
    " due to error ".toList ++ e.str

/-- Embedding of `PageBase.is_element_present`: wait for presence with
the default ignored list; a `TimeoutException` becomes `False`, success
becomes `True`, and any other exception is re-raised wrapped in a generic
exception. -/
def is_element_present (locator : Str) (polls : Nat)
    (behavior : Nat → PollOutcome) : Except Exc Bool :=
  let inner : Except Exc Elem :=
    match get_by locator with
    | Except.error e => Except.error e
    | Except.ok _ => wdwUntil defaultIgnored [] behavior 0 polls
  match inner with
  | Except.ok _ => Except.ok true
  | Except.error (Exc.timeoutException _) => Except.ok false
  | Except.error e => Except.error (Exc.genericException (presenceWrapMsg locator e))

/-- Embedding of `PageBase.is_element_displayed`: any failure of the
`find_element` lookup (a bare `except:`) becomes `False`; otherwise the
element's `is_displayed()` flag is returned.  `find_element` is called
with its default timeout of 5 seconds. -/
def is_element_displayed (locator : Str) (polls : Nat)
    (behavior : Nat → PollOutcome) : Except Exc Bool :=
  match find_element locator 5 polls behavior with
  | Except.error _ => Except.ok false
  | Except.ok e => Except.ok e.displayed

/-- Auxiliary for `listContains`: Boolean prefix test on char lists. -/
def listIsPrefix : Str → Str → Bool
  | [], _ => true
  | _ :: _, [] => false
  | a :: as, b :: bs => a = b && listIsPrefix as bs

/-- Embedding of the Python substring test `pat in s` for an arbitrary
pattern (used for the `"is not clickable"` message check and to state
what a diagnostic message carries). -/
def listContains (pat : Str) : Str → Bool
  | [] => listIsPrefix pat []
  | c :: rest => if listIsPrefix pat (c :: rest) then true else listContains pat rest

/-- Embedding of the retry loop of the external `retry` package used as
`@retry(exceptions, tries, delay)`: run the wrapped body; an exception in
the whitelist consumes one try and, while tries remain, sleeps `delay`
seconds and reruns the whole body; a non-whitelisted exception, or a
whitelisted one with no tries left, propagates.  The result is paired
with the number of attempts made and the total seconds slept so theorems
can speak about the retry budget and the delay.  `f` gives the outcome of
the wrapped body at each attempt index. -/
def retryFrom {α : Type} (wl : Exc → Bool) (delay : Nat) (f : Nat → Except Exc α) :
    Nat → Nat → Nat → Except Exc α × Nat × Nat
  | attempt, slept, 0 =>
    (Except.error (Exc.genericException "retry: no tries".toList), attempt, slept)
  | attempt, slept, t + 1 =>
    match f attempt with
    | Except.ok a => (Except.ok a, attempt + 1, slept)
    | Except.error e =>
      if wl e = true ∧ t ≠ 0 then
        retryFrom wl delay f (attempt + 1) (slept + delay) t
      else
        (Except.error e, attempt + 1, slept)

/-- The decorator entry point: `tries` total attempts, starting at
attempt 0 with nothing slept yet. -/
def retryDecorator {α : Type} (wl : Exc → Bool) (tries delay : Nat)
    (f : Nat → Except Exc α) : Except Exc α × Nat × Nat :=
  retryFrom wl delay f 0 0 tries

/-- The substring the `click` body looks for in the error message. -/
def notClickableMarker : Str := "is not clickable".toList

/-- Embedding of the body of `PageBase.click` once the element is in
hand: an error from `element.click()` whose message contains
`"is not clickable"` becomes the custom `NotClickableException`; any
other error is re-raised unchanged. -/
def click_once (res : Except Exc Unit) : Except Exc Unit :=
  match res with
  | Except.ok _ => Except.ok ()
  | Except.error e =>
    if listContains notClickableMarker e.str then Except.error Exc.notClickable
    else Except.error e

/-- The whitelist of `click`: `@retry((StaleElementReferenceException,
ElementNotVisibleException, NotClickableException), tries=5, delay=2)`. -/
def click_retry_whitelist : Exc → Bool
  | .staleElementReference => true
  | .elementNotVisible => true
  | .notClickable => true
  | _ => false

/-- Embedding of the decorated `PageBase.click` on a `WebElement`
argument (string locators route through `find_element` first); the
function `elemClick` gives the outcome of `element.click()` at each
attempt index. -/
def click (elemClick : Nat → Except Exc Unit) : Except Exc Unit × Nat × Nat :=
  retryDecorator click_retry_whitelist 5 2 (fun i => click_once (elemClick i))

/-- The whitelist `@retry(StaleElementReferenceException, tries=5,
delay=2)` shared by `set_field` and `get_attribute`. -/
def stale_only_whitelist : Exc → Bool
  | .staleElementReference => true
  | _ => false

/-- Embedding of Python `str(webelement)` used in the wrap message of
`set_field`. -/
def Elem.str (e : Elem) : Str :=
  "<WebElement (element-".toList ++ natToStr e.eid ++ ")>".toList

/-- The message of the generic exception the `set_field` body raises. -/
def setFieldWrapMsg (el : Elem) (e : Exc) : Str :=
  "Could not write on the the element ".toList ++ el.str ++ " due to ".toList ++ e.str

/-- Embedding of the body of `PageBase.set_field`: find the element
(errors from the lookup propagate as they are), then run the
clear/click/send-keys block, wrapping any of its errors in a generic
exception. -/
def set_field_once (findRes : Except Exc Elem) (bodyRes : Except Exc Unit) :
    Except Exc Elem :=
  match findRes with
  | Except.error e => Except.error e
  | Except.ok webelement =>
    match bodyRes with
    | Except.ok _ => Except.ok webelement
    | Except.error e =>
      Except.error (Exc.genericException (setFieldWrapMsg webelement e))

/-- Embedding of the decorated `PageBase.set_field`; `find` and `body`
give the outcome of the element lookup and of the send-keys block at
each attempt index. -/
def set_field (find : Nat → Except Exc Elem) (body : Nat → Except Exc Unit) :
    Except Exc Elem × Nat × Nat :=
  retryDecorator stale_only_whitelist 5 2 (fun i => set_field_once (find i) (body i))

/-- Embedding of the body of `PageBase.get_attribute` for a string
locator: find the element, then read the attribute; errors of the read
propagate unwrapped, so a stale read reaches the decorator. -/
def get_attribute_once (findRes : Except Exc Elem) (attrRes : Except Exc Str) :
    Except Exc Str :=
  match findRes with
  | Except.error e => Except.error e
  | Except.ok _ => attrRes

/-- Embedding of the decorated `PageBase.get_attribute`. -/
def get_attribute (find : Nat → Except Exc Elem) (attr : Nat → Except Exc Str) :
    Except Exc Str × Nat × Nat :=
  retryDecorator stale_only_whitelist 5 2 (fun i => get_attribute_once (find i) (attr i))

/-- A message of the kind `ElementClickInterceptedException` carries; it
contains the `"is not clickable"` marker. -/
def interceptedMsg : Str :=
  "element click intercepted: Element button is not clickable at point (10, 10)".toList

theorem containsAA_append_sep (pre v : Str) :
    containsAA (pre ++ '@' :: '@' :: v) = true := by
  induction pre with
  | nil => simp [containsAA]
  | cons c pre ih =>
    cases pre with
    | nil =>
      by_cases h : c = '@' <;> simp [containsAA, h]
    | cons d pre2 =>
      by_cases h : c = '@' ∧ d = '@'
      · simp [containsAA, h]
      · simpa [containsAA, h] using ih

theorem splitAA_append_sep (pre v : Str)
    (h : containsAA (pre ++ ['@']) = false) :
    splitAA (pre ++ '@' :: '@' :: v) = pre :: splitAA v := by
  induction pre with
  | nil => simp [splitAA]
  | cons c pre ih =>
    cases pre with
    | nil =>
      have hc : ¬ c = '@' := by
        intro hc
        subst hc
        simp [containsAA] at h
      simp [splitAA, hc]
    | cons d pre2 =>
      have hcd : ¬ (c = '@' ∧ d = '@') := by
        intro hcd
        simp [containsAA, hcd] at h
      have h2 : containsAA ((d :: pre2) ++ ['@']) = false := by
        simpa [containsAA, hcd] using h
      have ih2 : splitAA (d :: (pre2 ++ '@' :: '@' :: v)) = (d :: pre2) :: splitAA v := by
        simpa using ih h2
      simp [splitAA, hcd, ih2]

theorem splitAA_no_sep (v : Str) (h : containsAA v = false) :
    splitAA v = [v] := by
  induction v with
  | nil => simp [splitAA]
  | cons c t ih =>
    cases t with
    | nil => simp [splitAA]
    | cons d t2 =>
      have hcd : ¬ (c = '@' ∧ d = '@') := by
        intro hcd
        simp [containsAA, hcd] at h
      have h2 : containsAA (d :: t2) = false := by
        simpa [containsAA, hcd] using h
      have ih2 := ih h2
      simp [splitAA, hcd, ih2]

theorem splitAA_ne_nil (v : Str) : splitAA v ≠ [] := by
  cases v with
  | nil => simp [splitAA]
  | cons c t =>
    cases t with
    | nil => simp [splitAA]
    | cons d t2 =>
      by_cases hcd : c = '@' ∧ d = '@'
      · simp [splitAA, hcd]
      · simp only [splitAA, hcd, if_false]
        split <;> simp

theorem get_by_sep_eval (pre v : Str) (hpre : containsAA (pre ++ ['@']) = false) :
    get_by (pre ++ '@' :: '@' :: v) =
      if pre = Strategy.XPATH.value then Except.ok (By.xpath, (splitAA v).headD [])
      else if pre = Strategy.ID.value then Except.ok (By.id, (splitAA v).headD [])
      else if pre = Strategy.CSS.value then Except.ok (By.cssSelector, (splitAA v).headD [])
      else if pre = Strategy.TAGNAME.value then Except.ok (By.tagName, (splitAA v).headD [])
      else Except.error (Exc.genericException (invalidLocatorMsg ++ (pre ++ '@' :: '@' :: v))) := by
  have hin := containsAA_append_sep pre v
  have hsplit := splitAA_append_sep pre v hpre
  rcases hsv : splitAA v with _ | ⟨p, ps⟩
  · exact absurd hsv (splitAA_ne_nil v)
  · rw [hsv] at hsplit
    simp [get_by, hin, hsplit, hsv]

/-- C1: for every locator string made of a valid strategy token, the
separator, and a remainder containing no further separator (so the string
contains exactly one `"@@"`), the resolver returns that strategy paired
with the remainder as the value. -/
theorem resolver_valid_single_separator (st : Strategy) (v : Str)
    (hv : containsAA v = false) :
    get_by (st.value ++ '@' :: '@' :: v) = Except.ok (st.toBy, v) := by
  have hpre : containsAA (st.value ++ ['@']) = false := by cases st <;> decide
  have hsv : splitAA v = [v] := splitAA_no_sep v hv
  rw [get_by_sep_eval st.value v hpre, hsv]
  cases st with
  | XPATH =>
    rw [if_pos rfl]
    simp [Strategy.toBy]
  | ID =>
    rw [if_neg (by decide), if_pos rfl]
    simp [Strategy.toBy]
  | CSS =>
    rw [if_neg (by decide), if_neg (by decide), if_pos rfl]
    simp [Strategy.toBy]
  | TAGNAME =>
    rw [if_neg (by decide), if_neg (by decide), if_neg (by decide), if_pos rfl]
    simp [Strategy.toBy]

theorem resolver_valid_single_separator_witness :
    containsAA "//div".toList = false ∧
      get_by ("xpath".toList ++ '@' :: '@' :: "//div".toList) =
        Except.ok (By.xpath, "//div".toList) :=
  ⟨by decide, resolver_valid_single_separator Strategy.XPATH "//div".toList (by decide)⟩

/-- C2: for every locator string containing no `"@@"` separator, the
resolver returns strategy `id` with the entire input string as the
value. -/
theorem resolver_no_separator (s : Str) (h : containsAA s = false) :
    get_by s = Except.ok (By.id, s) := by
  have hpre : containsAA (Strategy.ID.value ++ ['@']) = false := by decide
  have hsplit := splitAA_append_sep Strategy.ID.value s hpre
  have hs : splitAA s = [s] := splitAA_no_sep s h
  rw [hs] at hsplit
  simp [get_by, h, hsplit]
  decide

theorem resolver_no_separator_witness :
    containsAA "myid".toList = false ∧
      get_by "myid".toList = Except.ok (By.id, "myid".toList) :=
  ⟨by decide, resolver_no_separator "myid".toList (by decide)⟩

/-- C3: for every locator string whose prefix before the first `"@@"` is
none of the four strategy tokens (compared case-sensitively), the
resolver fails with the invalid-locator error. -/
theorem resolver_unknown_prefix (pre v : Str)
    (hpre : containsAA (pre ++ ['@']) = false)
    (h1 : pre ≠ Strategy.XPATH.value) (h2 : pre ≠ Strategy.ID.value)
    (h3 : pre ≠ Strategy.CSS.value) (h4 : pre ≠ Strategy.TAGNAME.value) :
    get_by (pre ++ '@' :: '@' :: v) =
      Except.error (Exc.genericException (invalidLocatorMsg ++ (pre ++ '@' :: '@' :: v))) := by
  rw [get_by_sep_eval pre v hpre, if_neg h1, if_neg h2, if_neg h3, if_neg h4]

theorem resolver_unknown_prefix_witness :
    containsAA ("bogus".toList ++ ['@']) = false ∧
      get_by ("bogus".toList ++ '@' :: '@' :: "foo".toList) =
        Except.error (Exc.genericException
          (invalidLocatorMsg ++ ("bogus".toList ++ '@' :: '@' :: "foo".toList))) :=
  ⟨by decide, resolver_unknown_prefix "bogus".toList "foo".toList
    (by decide) (by decide) (by decide) (by decide) (by decide)⟩

/-- C4 counterexample: the locator string `"xpath@@"`, whose value
component is empty, is resolved to `(XPATH, "")` instead of being
rejected, so the resolver does not enforce the non-empty-value
invariant. -/
theorem resolver_empty_value_counterexample :
    get_by "xpath@@".toList = Except.ok (By.xpath, []) := by decide

/-- C4 amended: the resolver performs no emptiness check on the value
component; a valid strategy token followed by `"@@"` and nothing else
resolves to that strategy with the empty value, and the empty locator
string resolves to `(id, "")`. -/
theorem resolver_empty_value_accepted :
    (∀ st : Strategy, get_by (st.value ++ ['@', '@']) = Except.ok (st.toBy, [])) ∧
      get_by [] = Except.ok (By.id, []) := by
  constructor
  · intro st
    cases st <;> decide
  · decide

/-- C10: for every locator string with a valid strategy prefix and two or
more `"@@"` separators, the resolver returns only the segment between the
first and the second separator as the value; everything from the second
separator onward is silently discarded. -/
theorem resolver_multi_separator (st : Strategy) (v1 v2 : Str)
    (hv1 : containsAA (v1 ++ ['@']) = false) :
    get_by (st.value ++ '@' :: '@' :: (v1 ++ '@' :: '@' :: v2)) =
      Except.ok (st.toBy, v1) := by
  have hpre : containsAA (st.value ++ ['@']) = false := by cases st <;> decide
  have hs : splitAA (v1 ++ '@' :: '@' :: v2) = v1 :: splitAA v2 :=
    splitAA_append_sep v1 v2 hv1
  rw [get_by_sep_eval st.value (v1 ++ '@' :: '@' :: v2) hpre, hs]
  cases st with
  | XPATH =>
    rw [if_pos rfl]
    simp [Strategy.toBy]
  | ID =>
    rw [if_neg (by decide), if_pos rfl]
    simp [Strategy.toBy]
  | CSS =>
    rw [if_neg (by decide), if_neg (by decide), if_pos rfl]
    simp [Strategy.toBy]
  | TAGNAME =>
    rw [if_neg (by decide), if_neg (by decide), if_neg (by decide), if_pos rfl]
    simp [Strategy.toBy]

theorem resolver_multi_separator_witness :
    containsAA ("a".toList ++ ['@']) = false ∧
      get_by ("tag name".toList ++ '@' :: '@' :: ("a".toList ++ '@' :: '@' :: "b".toList)) =
        Except.ok (By.tagName, "a".toList) :=
  ⟨by decide, resolver_multi_separator Strategy.TAGNAME "a".toList "b".toList (by decide)⟩

theorem wdwUntil_hit (ignored : Exc → Bool) (msg : Str)
    (behavior : Nat → PollOutcome) :
    ∀ (k polls step : Nat) (el : Elem), k < polls →
      (∀ j, j < k → behavior (step + j) = PollOutcome.falsy ∨
        ∃ e, behavior (step + j) = PollOutcome.err e ∧ ignored e = true) →
      behavior (step + k) = PollOutcome.val el →
      wdwUntil ignored msg behavior step polls = Except.ok el := by
  intro k
  induction k with
  | zero =>
    intro polls step el hk hb hv
    cases polls with
    | zero => omega
    | succ p =>
      have hv0 : behavior step = PollOutcome.val el := by simpa using hv
      simp [wdwUntil, hv0]
  | succ k ih =>
    intro polls step el hk hb hv
    cases polls with
    | zero => omega
    | succ p =>
      have h0 := hb 0 (by omega)
      have hnext : ∀ j, j < k → behavior (step + 1 + j) = PollOutcome.falsy ∨
          ∃ e, behavior (step + 1 + j) = PollOutcome.err e ∧ ignored e = true := by
        intro j hj
        have := hb (j + 1) (by omega)
        have harith : step + (j + 1) = step + 1 + j := by omega
        rwa [harith] at this
      have hvnext : behavior (step + 1 + k) = PollOutcome.val el := by
        have harith : step + (k + 1) = step + 1 + k := by omega
        rwa [harith] at hv
      rcases h0 with hf | ⟨e, he, hig⟩
      · have hf0 : behavior step = PollOutcome.falsy := by simpa using hf
        simp only [wdwUntil, hf0]
        exact ih p (step + 1) el (by omega) hnext hvnext
      · have he0 : behavior step = PollOutcome.err e := by simpa using he
        simp only [wdwUntil, he0, hig, if_true]
        exact ih p (step + 1) el (by omega) hnext hvnext

theorem wdwUntil_timeout (ignored : Exc → Bool) (msg : Str)
    (behavior : Nat → PollOutcome) :
    ∀ (polls step : Nat),
      (∀ j, behavior j = PollOutcome.falsy ∨
        ∃ e, behavior j = PollOutcome.err e ∧ ignored e = true) →
      wdwUntil ignored msg behavior step polls =
        Except.error (Exc.timeoutException msg) := by
  intro polls
  induction polls with
  | zero =>
    intro step h
    simp [wdwUntil]
  | succ p ih =>
    intro step h
    rcases h step with hf | ⟨e, he, hig⟩
    · simp only [wdwUntil, hf]
      exact ih (step + 1) h
    · simp only [wdwUntil, he, hig, if_true]
      exact ih (step + 1) h

theorem listIsPrefix_self_append (p b : Str) : listIsPrefix p (p ++ b) = true := by
  induction p with
  | nil => rfl
  | cons a as ih => simp [listIsPrefix, ih]

theorem listContains_append_middle (pat a b : Str) :
    listContains pat (a ++ (pat ++ b)) = true := by
  induction a with
  | nil =>
    rcases hpb : pat ++ b with _ | ⟨c, rest⟩
    · have hp : pat = [] := (List.append_eq_nil.mp hpb).1
      subst hp
      rfl
    · have : listIsPrefix pat (c :: rest) = true :=
        hpb ▸ listIsPrefix_self_append pat b
      simp [listContains, this]
  | cons x a ih =>
    simp [listContains, ih]

theorem locator_infix_findElementWrapMsg (loc : Str) (e : Exc) :
    listContains loc (findElementWrapMsg loc e) = true := by
  have h := listContains_append_middle loc
    "Could Not Find Element with locator ".toList
    (" due to error ".toList ++ e.str ++ " ".toList)
  simpa [findElementWrapMsg, List.append_assoc] using h

/-- C7 counterexample: `wait_till_element_is_present` with a condition
that never becomes true fails with a `TimeoutException` whose message is
empty, so the timeout error does not carry the original locator. -/
theorem wait_timeout_counterexample :
    wait_till_element_is_present "myid".toList 3 (fun _ => PollOutcome.falsy) =
      Except.error (Exc.timeoutException []) ∧
      listContains "myid".toList ([] : Str) = false := by
  constructor
  · decide
  · decide

/-- C7 amended: every wait operation returns the satisfied element when
the presence condition becomes true within the timeout; when it never
becomes true, `find_element` fails with a wrapped generic error whose
message contains the original locator (via the timeout message it passes
to the wait), while `wait_till_element_is_present` fails with a bare
`TimeoutException` carrying an empty message and hence no locator. -/
theorem wait_returns_element_or_timeout (loc : Str) (timeout polls k : Nat)
    (behavior : Nat → PollOutcome) (el : Elem) (b : By × Str) :
    (get_by loc = Except.ok b →
      k < polls →
      (∀ j, j < k → behavior j = PollOutcome.falsy ∨
        behavior j = PollOutcome.err Exc.noSuchElement) →
      behavior k = PollOutcome.val el →
      find_element loc timeout polls behavior = Except.ok el ∧
        wait_till_element_is_present loc polls behavior = Except.ok el) ∧
    (get_by loc = Except.ok b →
      (∀ j, behavior j = PollOutcome.falsy ∨
        behavior j = PollOutcome.err Exc.noSuchElement) →
      find_element loc timeout polls behavior =
        Except.error (Exc.genericException
          (findElementWrapMsg loc (Exc.timeoutException (findTimeoutMsg timeout loc)))) ∧
        listContains loc
          (findElementWrapMsg loc (Exc.timeoutException (findTimeoutMsg timeout loc))) = true ∧
        wait_till_element_is_present loc polls behavior =
          Except.error (Exc.timeoutException [])) := by
  constructor
  · intro hb hk hbefore hit
    have hbefore2 : ∀ j, j < k → behavior (0 + j) = PollOutcome.falsy ∨
        ∃ e, behavior (0 + j) = PollOutcome.err e ∧ defaultIgnored e = true := by
      intro j hj
      rcases hbefore j hj with hf | he
      · left
        simpa using hf
      · right
        exact ⟨Exc.noSuchElement, by simpa using he, rfl⟩
    have hit2 : behavior (0 + k) = PollOutcome.val el := by simpa using hit
    have h1 := wdwUntil_hit defaultIgnored (findTimeoutMsg timeout loc) behavior
      k polls 0 el hk hbefore2 hit2
    have h2 := wdwUntil_hit defaultIgnored [] behavior k polls 0 el hk hbefore2 hit2
    constructor
    · simp [find_element, hb, h1]
    · simp [wait_till_element_is_present, hb, h2]
  · intro hb hnever
    have hnever2 : ∀ j, behavior j = PollOutcome.falsy ∨
        ∃ e, behavior j = PollOutcome.err e ∧ defaultIgnored e = true := by
      intro j
      rcases hnever j with hf | he
      · exact Or.inl hf
      · exact Or.inr ⟨Exc.noSuchElement, he, rfl⟩
    have h1 := wdwUntil_timeout defaultIgnored (findTimeoutMsg timeout loc) behavior
      polls 0 hnever2
    have h2 := wdwUntil_timeout defaultIgnored [] behavior polls 0 hnever2
    refine ⟨?_, locator_infix_findElementWrapMsg loc _, ?_⟩
    · simp [find_element, hb, h1]
    · simp [wait_till_element_is_present, hb, h2]

theorem wait_returns_element_or_timeout_witness :
    (find_element "myid".toList 5 3
        (fun j => if j = 0 then PollOutcome.falsy else PollOutcome.val ⟨1, true⟩) =
        Except.ok ⟨1, true⟩ ∧
      wait_till_element_is_present "myid".toList 3
        (fun j => if j = 0 then PollOutcome.falsy else PollOutcome.val ⟨1, true⟩) =
        Except.ok ⟨1, true⟩) ∧
    (find_element "myid".toList 5 3 (fun _ => PollOutcome.falsy) =
        Except.error (Exc.genericException
          (findElementWrapMsg "myid".toList
            (Exc.timeoutException (findTimeoutMsg 5 "myid".toList)))) ∧
      listContains "myid".toList
        (findElementWrapMsg "myid".toList
          (Exc.timeoutException (findTimeoutMsg 5 "myid".toList))) = true ∧
      wait_till_element_is_present "myid".toList 3 (fun _ => PollOutcome.falsy) =
        Except.error (Exc.timeoutException [])) :=
  ⟨(wait_returns_element_or_timeout "myid".toList 5 3 1
      (fun j => if j = 0 then PollOutcome.falsy else PollOutcome.val ⟨1, true⟩)
      ⟨1, true⟩ (By.id, "myid".toList)).1
      (by decide) (by decide)
      (fun j hj => by
        have hj0 : j = 0 := by omega
        subst hj0
        left
        rfl)
      (by decide),
   (wait_returns_element_or_timeout "myid".toList 5 3 1
      (fun _ => PollOutcome.falsy) ⟨1, true⟩ (By.id, "myid".toList)).2
      (by decide) (fun _ => Or.inl rfl)⟩

/-- C8 counterexample: a transient stale-element error at the first poll
of `find_element` is not absorbed; the wait terminates immediately with a
wrapped error even though the element would have been found at the next
poll (as the visibility wait on the same behavior shows). -/
theorem wait_stale_not_absorbed_counterexample :
    find_element "myid".toList 5 3
      (fun i => if i = 0 then PollOutcome.err Exc.staleElementReference
        else PollOutcome.val ⟨1, true⟩) =
      Except.error (Exc.genericException
        (findElementWrapMsg "myid".toList Exc.staleElementReference)) ∧
    wait_till_element_is_visible "myid".toList 3
      (fun i => if i = 0 then PollOutcome.err Exc.staleElementReference
        else PollOutcome.val ⟨1, true⟩) =
      Except.ok ⟨1, true⟩ := by
  constructor
  · decide
  · decide

/-- C8 amended: only the waits constructed with an explicit
`ignored_exceptions` list (such as `wait_till_element_is_visible`) absorb
the transient stale-element, not-visible and not-selectable errors during
polling; `find_element` and `wait_till_element_is_present` absorb only
`NoSuchElementException`, so a stale-element error at the first poll
terminates them early instead of being absorbed. -/
theorem wait_transient_absorption (loc : Str) (timeout polls k : Nat)
    (behavior : Nat → PollOutcome) (el : Elem) (b : By × Str) :
    (get_by loc = Except.ok b →
      k < polls →
      (∀ j, j < k → behavior j = PollOutcome.falsy ∨
        ∃ e, behavior j = PollOutcome.err e ∧ visibilityWaitIgnored e = true) →
      behavior k = PollOutcome.val el →
      wait_till_element_is_visible loc polls behavior = Except.ok el) ∧
    (get_by loc = Except.ok b →
      0 < polls →
      behavior 0 = PollOutcome.err Exc.staleElementReference →
      find_element loc timeout polls behavior =
        Except.error (Exc.genericException
          (findElementWrapMsg loc Exc.staleElementReference)) ∧
        wait_till_element_is_present loc polls behavior =
          Except.error Exc.staleElementReference) := by
  constructor
  · intro hb hk hbefore hit
    have hbefore2 : ∀ j, j < k → behavior (0 + j) = PollOutcome.falsy ∨
        ∃ e, behavior (0 + j) = PollOutcome.err e ∧ visibilityWaitIgnored e = true := by
      intro j hj
      simpa using hbefore j hj
    have hit2 : behavior (0 + k) = PollOutcome.val el := by simpa using hit
    have h1 := wdwUntil_hit visibilityWaitIgnored [] behavior k polls 0 el hk hbefore2 hit2
    simp [wait_till_element_is_visible, hb, h1]
  · intro hb hp h0
    cases polls with
    | zero => omega
    | succ p =>
      have h1 : wdwUntil defaultIgnored (findTimeoutMsg timeout loc) behavior 0 (p + 1) =
          Except.error Exc.staleElementReference := by
        simp [wdwUntil, h0, defaultIgnored]
      have h2 : wdwUntil defaultIgnored [] behavior 0 (p + 1) =
          Except.error Exc.staleElementReference := by
        simp [wdwUntil, h0, defaultIgnored]
      constructor
      · simp [find_element, hb, h1]
      · simp [wait_till_element_is_present, hb, h2]

theorem wait_transient_absorption_witness :
    wait_till_element_is_visible "myid".toList 3
      (fun i => if i = 0 then PollOutcome.err Exc.elementNotVisible
        else PollOutcome.val ⟨2, true⟩) = Except.ok ⟨2, true⟩ ∧
    (find_element "myid".toList 5 3 (fun _ => PollOutcome.err Exc.staleElementReference) =
        Except.error (Exc.genericException
          (findElementWrapMsg "myid".toList Exc.staleElementReference)) ∧
      wait_till_element_is_present "myid".toList 3
        (fun _ => PollOutcome.err Exc.staleElementReference) =
        Except.error Exc.staleElementReference) :=
  ⟨(wait_transient_absorption "myid".toList 5 3 1
      (fun i => if i = 0 then PollOutcome.err Exc.elementNotVisible
        else PollOutcome.val ⟨2, true⟩) ⟨2, true⟩ (By.id, "myid".toList)).1
      (by decide) (by decide)
      (fun j hj => by
        have hj0 : j = 0 := by omega
        subst hj0
        exact Or.inr ⟨Exc.elementNotVisible, rfl, rfl⟩)
      (by decide),
   (wait_transient_absorption "myid".toList 5 3 1
      (fun _ => PollOutcome.err Exc.staleElementReference) ⟨2, true⟩
      (By.id, "myid".toList)).2 (by decide) (by decide) rfl⟩

/-- C9 counterexample: `is_element_present` does not convert every
failure of the underlying lookup into `False`: a stale-element error
during the presence wait is re-raised wrapped in a generic exception
instead of being reported as the boolean `False`. -/
theorem presence_check_raises_counterexample :
    is_element_present "myid".toList 3
      (fun _ => PollOutcome.err Exc.staleElementReference) =
      Except.error (Exc.genericException
        (presenceWrapMsg "myid".toList Exc.staleElementReference)) := by
  decide

/-- C9 amended: `is_element_displayed` converts any failure of the
underlying `find_element` lookup into `False` and otherwise reports the
element's displayed flag, while `is_element_present` returns `True`
exactly when the element is found within the timeout but converts only
the timeout into `False`, re-raising any other lookup failure wrapped in
a generic exception. -/
theorem presence_checks_best_effort (loc : Str) (polls k : Nat)
    (behavior : Nat → PollOutcome) (el : Elem) (b : By × Str) :
    (∀ e, find_element loc 5 polls behavior = Except.error e →
      is_element_displayed loc polls behavior = Except.ok false) ∧
    (get_by loc = Except.ok b →
      k < polls →
      (∀ j, j < k → behavior j = PollOutcome.falsy ∨
        behavior j = PollOutcome.err Exc.noSuchElement) →
      behavior k = PollOutcome.val el →
      is_element_displayed loc polls behavior = Except.ok el.displayed ∧
        is_element_present loc polls behavior = Except.ok true) ∧
    (get_by loc = Except.ok b →
      (∀ j, behavior j = PollOutcome.falsy ∨
        behavior j = PollOutcome.err Exc.noSuchElement) →
      is_element_present loc polls behavior = Except.ok false) ∧
    (get_by loc = Except.ok b →
      0 < polls →
      behavior 0 = PollOutcome.err Exc.staleElementReference →
      is_element_present loc polls behavior =
        Except.error (Exc.genericException
          (presenceWrapMsg loc Exc.staleElementReference))) := by
  refine ⟨?_, ?_, ?_, ?_⟩
  · intro e he
    simp [is_element_displayed, he]
  · intro hb hk hbefore hit
    have hbefore2 : ∀ j, j < k → behavior (0 + j) = PollOutcome.falsy ∨
        ∃ e, behavior (0 + j) = PollOutcome.err e ∧ defaultIgnored e = true := by
      intro j hj
      rcases hbefore j hj with hf | he
      · left
        simpa using hf
      · right
        exact ⟨Exc.noSuchElement, by simpa using he, rfl⟩
    have hit2 : behavior (0 + k) = PollOutcome.val el := by simpa using hit
    have h1 := wdwUntil_hit defaultIgnored (findTimeoutMsg 5 loc) behavior
      k polls 0 el hk hbefore2 hit2
    have h2 := wdwUntil_hit defaultIgnored [] behavior k polls 0 el hk hbefore2 hit2
    have hf : find_element loc 5 polls behavior = Except.ok el := by
      simp [find_element, hb, h1]
    constructor
    · simp [is_element_displayed, hf]
    · simp [is_element_present, hb, h2]
  · intro hb hnever
    have hnever2 : ∀ j, behavior j = PollOutcome.falsy ∨
        ∃ e, behavior j = PollOutcome.err e ∧ defaultIgnored e = true := by
      intro j
      rcases hnever j with hf | he
      · exact Or.inl hf
      · exact Or.inr ⟨Exc.noSuchElement, he, rfl⟩
    have h2 := wdwUntil_timeout defaultIgnored [] behavior polls 0 hnever2
    simp [is_element_present, hb, h2]
  · intro hb hp h0
    cases polls with
    | zero => omega
    | succ p =>
      have h2 : wdwUntil defaultIgnored [] behavior 0 (p + 1) =
          Except.error Exc.staleElementReference := by
        simp [wdwUntil, h0, defaultIgnored]
      simp [is_element_present, hb, h2]

theorem presence_checks_best_effort_witness :
    is_element_displayed "myid".toList 3
      (fun _ => PollOutcome.err Exc.staleElementReference) = Except.ok false ∧
    (is_element_displayed "myid".toList 3
        (fun j => if j = 0 then PollOutcome.falsy else PollOutcome.val ⟨3, false⟩) =
        Except.ok false ∧
      is_element_present "myid".toList 3
        (fun j => if j = 0 then PollOutcome.falsy else PollOutcome.val ⟨3, false⟩) =
        Except.ok true) ∧
    is_element_present "myid".toList 3 (fun _ => PollOutcome.falsy) = Except.ok false ∧
    is_element_present "myid".toList 3
      (fun _ => PollOutcome.err Exc.staleElementReference) =
      Except.error (Exc.genericException
        (presenceWrapMsg "myid".toList Exc.staleElementReference)) :=
  ⟨(presence_checks_best_effort "myid".toList 3 1
      (fun _ => PollOutcome.err Exc.staleElementReference) ⟨3, false⟩
      (By.id, "myid".toList)).1
      (Exc.genericException (findElementWrapMsg "myid".toList Exc.staleElementReference))
      (by decide),
   (presence_checks_best_effort "myid".toList 3 1
      (fun j => if j = 0 then PollOutcome.falsy else PollOutcome.val ⟨3, false⟩)
      ⟨3, false⟩ (By.id, "myid".toList)).2.1 (by decide) (by decide)
      (fun j hj => by
        have hj0 : j = 0 := by omega
        subst hj0
        left
        rfl)
      (by decide),
   (presence_checks_best_effort "myid".toList 3 1 (fun _ => PollOutcome.falsy)
      ⟨3, false⟩ (By.id, "myid".toList)).2.2.1 (by decide) (fun _ => Or.inl rfl),
   (presence_checks_best_effort "myid".toList 3 1
      (fun _ => PollOutcome.err Exc.staleElementReference) ⟨3, false⟩
      (By.id, "myid".toList)).2.2.2 (by decide) (by decide) rfl⟩

theorem find_element_error_generic (loc : Str) (timeout polls : Nat)
    (behavior : Nat → PollOutcome) (e : Exc)
    (h : find_element loc timeout polls behavior = Except.error e) :
    ∃ m, e = Exc.genericException m := by
  simp only [find_element] at h
  split at h
  · exact absurd h (by simp)
  · rename_i e0 heq
    exact ⟨findElementWrapMsg loc e0, by injection h with h2; exact h2.symm⟩

theorem retryFrom_first_stop {α : Type} (wl : Exc → Bool) (delay : Nat)
    (f : Nat → Except Exc α) (t : Nat)
    (h : ∀ e, f 0 = Except.error e → wl e = false) :
    (retryFrom wl delay f 0 0 (t + 1)).2.1 = 1 := by
  rcases hf : f 0 with e | a
  · have hw := h e hf
    simp [retryFrom, hf, hw]
  · simp [retryFrom, hf]

/-- C5 counterexample: a whitelisted transient stale-element error raised
by the send-keys block of `set_field` triggers no retry at all: the body
wraps it in a generic exception before the decorator can see it, so the
action fails after exactly one attempt instead of being retried up to 5
times. -/
theorem set_field_no_retry_counterexample :
    (set_field (fun _ => Except.ok ⟨7, true⟩)
        (fun _ => Except.error Exc.staleElementReference)).2.1 = 1 ∧
      (set_field (fun _ => Except.ok ⟨7, true⟩)
        (fun _ => Except.error Exc.staleElementReference)).1 =
        Except.error (Exc.genericException
          (setFieldWrapMsg ⟨7, true⟩ Exc.staleElementReference)) := by
  constructor
  · decide
  · decide

/-- C5 amended: for `click` and `get_attribute` a whitelisted transient
error reaching the decorator is retried with a fixed 2-second delay
between attempts, up to 5 attempts in total, after which the last error
propagates; in particular a click that raises the not-clickable condition
on the first two attempts and succeeds on the third ultimately succeeds
with exactly 3 attempts.  `set_field`, whose body wraps every underlying
error in a generic exception, always finishes in exactly one attempt when
its lookup goes through `find_element`. -/
theorem action_retry_budget :
    click (fun i => if i < 2
        then Except.error (Exc.genericException interceptedMsg)
        else Except.ok ()) = (Except.ok (), 3, 4) ∧
    click (fun _ => Except.error (Exc.genericException interceptedMsg)) =
      (Except.error Exc.notClickable, 5, 8) ∧
    get_attribute (fun _ => Except.ok ⟨1, true⟩)
        (fun _ => Except.error Exc.staleElementReference) =
      (Except.error Exc.staleElementReference, 5, 8) ∧
    get_attribute (fun _ => Except.ok ⟨1, true⟩)
        (fun i => if i < 2 then Except.error Exc.staleElementReference
          else Except.ok "value".toList) =
      (Except.ok "value".toList, 3, 4) ∧
    (∀ (loc : Str) (timeout polls : Nat) (bseq : Nat → Nat → PollOutcome)
        (body : Nat → Except Exc Unit),
      (set_field (fun i => find_element loc timeout polls (bseq i)) body).2.1 = 1) := by
  refine ⟨by decide, by decide, by decide, by decide, ?_⟩
  intro loc timeout polls bseq body
  apply retryFrom_first_stop
  intro e he
  have he2 : set_field_once (find_element loc timeout polls (bseq 0)) (body 0) =
      Except.error e := he
  rcases hf : find_element loc timeout polls (bseq 0) with e0 | el
  · obtain ⟨m, rfl⟩ := find_element_error_generic loc timeout polls (bseq 0) e0 hf
    rw [hf] at he2
    simp [set_field_once] at he2
    subst he2
    rfl
  · rw [hf] at he2
    rcases hb : body 0 with eb | u
    · rw [hb] at he2
      simp [set_field_once] at he2
      subst he2
      rfl
    · rw [hb] at he2
      simp [set_field_once] at he2

/-- C6 counterexample: a click failure other than the not-clickable
condition — a stale-element error raised by `element.click()` on the
first two attempts — does not propagate immediately: the decorator
whitelist also contains it, so the click is retried and succeeds on the
third attempt. -/
theorem click_stale_retried_counterexample :
    click (fun i => if i < 2 then Except.error Exc.staleElementReference
      else Except.ok ()) = (Except.ok (), 3, 4) := by
  decide

/-- C6 amended: `click` maps errors whose message contains
`"is not clickable"` to the custom `NotClickableException` and retries
them; stale-element-reference and element-not-visible failures are
likewise retried through the decorator whitelist; every other click
failure propagates to the caller after a single attempt with no retry. -/
theorem click_error_discrimination :
    click (fun i => if i = 0
        then Except.error (Exc.genericException interceptedMsg)
        else Except.ok ()) = (Except.ok (), 2, 2) ∧
    click (fun i => if i = 0 then Except.error Exc.elementNotVisible
        else Except.ok ()) = (Except.ok (), 2, 2) ∧
    (∀ (e : Exc) (rest : Nat → Except Exc Unit),
      listContains notClickableMarker e.str = false →
      click_retry_whitelist e = false →
      click (fun i => if i = 0 then Except.error e else rest i) =
        (Except.error e, 1, 0)) := by
  refine ⟨by decide, by decide, ?_⟩
  intro e rest h1 h2
  have hg : click_once (Except.error e) = Except.error e := by
    simp [click_once, h1]
  show retryFrom click_retry_whitelist 2
    (fun i => click_once (if i = 0 then Except.error e else rest i)) 0 0 5 =
    (Except.error e, 1, 0)
  simp [retryFrom, hg, h2]

theorem click_error_discrimination_witness :
    listContains notClickableMarker (Exc.genericException "boom".toList).str = false ∧
      click_retry_whitelist (Exc.genericException "boom".toList) = false ∧
      click (fun i => if i = 0
          then Except.error (Exc.genericException "boom".toList)
          else Except.ok ()) =
        (Except.error (Exc.genericException "boom".toList), 1, 0) :=
  ⟨by decide, rfl,
    click_error_discrimination.2.2 (Exc.genericException "boom".toList)
      (fun _ => Except.ok ()) (by decide) rfl⟩
